import Mathlib

/-!
Shallow embedding of the stakeholder multi-threading scoring engine
(scoring service, risk prediction service, coverage/lifecycle service and
alert throttle) together with verified properties of the embedded code.

Conventions used throughout:
* JavaScript numbers appearing in score arithmetic are embedded as `Rat`
  (the decimal literals `0.30`, `0.25`, `0.35`, `0.7` are written as the
  exact rationals they denote in the source text); integer-valued results
  (`Math.round`, counters) are `Int`/`Nat`.
* `Math.round` is `jsRound` (floor of `x + 1/2`, i.e. ties toward `+∞`,
  exactly JavaScript's behaviour).
* Optional / possibly-`undefined` fields are `Option`; JavaScript `x || d`
  on a numeric field additionally treats `0` as absent and on a string
  field treats `""` as absent, and the embedding reproduces this where the
  source relies on it.
* Timestamps (`Date.now()`, parsed dates) are milliseconds as `Int`.
-/

set_option autoImplicit false

namespace HubspotMT

/-- JavaScript `Math.round`: floor of `x + 1/2` (ties round toward `+∞`). -/
def jsRound (q : Rat) : Int := ⌊q + 1/2⌋

/-- JavaScript `String.prototype.toUpperCase` (character-wise upper-casing;
the buying-role strings are ASCII). -/
def jsToUpper (s : String) : String := ⟨s.data.map Char.toUpper⟩

theorem jsRound_nonneg {q : Rat} (h : 0 ≤ q) : 0 ≤ jsRound q := by
  unfold jsRound
  have : (0 : Int) = ⌊(0 : Rat) + 1/2⌋ := by norm_num
  rw [this]
  exact Int.floor_le_floor (by linarith)

theorem jsRound_le_of_le {q : Rat} {n : Int} (h : q ≤ (n : Rat)) : jsRound q ≤ n := by
  unfold jsRound
  have hn : ⌊(n : Rat) + 1/2⌋ = n := by
    rw [Int.floor_eq_iff]
    constructor <;> linarith
  calc ⌊q + 1/2⌋ ≤ ⌊(n : Rat) + 1/2⌋ := Int.floor_le_floor (by linarith)
    _ = n := hn

/-! ## Scoring service (`scoringService`) -/

/-- Engagement counters carried by a contact: `{ emails, meetings, calls, total }`. -/
structure Engagements where
  emails : Nat := 0
  meetings : Nat := 0
  calls : Nat := 0
  total : Nat := 0
deriving Repr, DecidableEq

/-- A contact record as consumed by the scoring service: the HubSpot
`properties` of interest and the optional engagement counters attached by
the data-fetch layer. -/
structure Contact where
  id : Option String := none
  firstname : Option String := none
  lastname : Option String := none
  email : Option String := none
  hs_buying_role : Option String := none
  jobtitle : Option String := none
  engagements : Option Engagements := none
deriving Repr, DecidableEq

/-- `BUYING_ROLE_WEIGHTS` lookup table. -/
def BUYING_ROLE_WEIGHTS (role : String) : Option Nat :=
  if role = "DECISION_MAKER" then some 30
  else if role = "BUDGET_HOLDER" then some 25
  else if role = "CHAMPION" then some 20
  else if role = "INFLUENCER" then some 15
  else if role = "END_USER" then some 10
  else if role = "BLOCKER" then some 5
  else if role = "OTHER" then some 5
  else none

/-- `BUYING_ROLE_WEIGHTS[role] || BUYING_ROLE_WEIGHTS.OTHER`. -/
def roleWeight (role : String) : Nat := (BUYING_ROLE_WEIGHTS role).getD 5

/-- `KEY_ROLES`. -/
def KEY_ROLES : List String := ["DECISION_MAKER", "BUDGET_HOLDER", "CHAMPION"]

/-- `contact.properties?.hs_buying_role?.toUpperCase() || 'OTHER'`
(an absent or empty role string falls back to `'OTHER'`). -/
def effectiveBuyingRole (c : Contact) : String :=
  match c.hs_buying_role with
  | none => "OTHER"
  | some s => if s = "" then "OTHER" else jsToUpper s

/-- `contact.engagements?.total || 0`. -/
def contactTotal (c : Contact) : Nat := (c.engagements.map (·.total)).getD 0

/-- `calculateContactEngagementScore`: per-channel capped weighted sum,
total capped at 100. -/
def calculateContactEngagementScore (e : Engagements) : Nat :=
  min (min (e.meetings * 20) 40 + min (e.calls * 15) 30 + min (e.emails * 5) 30) 100

/-- The "active" test of `calculateParticipationScore`: at least 2 total
engagements. -/
def isActiveContact (c : Contact) : Bool := contactTotal c ≥ 2

/-- `calculateParticipationScore`. -/
def calculateParticipationScore (contacts : List Contact) : Int :=
  if contacts.length = 0 then 0
  else
    let activeCount := (contacts.filter isActiveContact).length
    let rateScore : Rat := ((activeCount : Rat) / (contacts.length : Rat)) * 60
    let volumeBonus := min (activeCount * 10) 40
    min (jsRound (rateScore + (volumeBonus : Rat))) 100

/-- JavaScript `Set` insertion: add at the end unless already present. -/
def insertUnique (l : List String) (r : String) : List String :=
  if l.contains r then l else l ++ [r]

/-- The `coveredRoles` set accumulated by `calculateRoleCoverageScore`,
in insertion order. -/
def coveredRolesOf (contacts : List Contact) : List String :=
  contacts.foldl (fun acc c => insertUnique acc (effectiveBuyingRole c)) []

/-- Result record of `calculateRoleCoverageScore`. -/
structure RoleCoverageResult where
  score : Int
  coveredRoles : List String
  missingKeyRoles : List String
  rolePoints : Nat
deriving Repr, DecidableEq

/-- `missingKeyRoles = KEY_ROLES.filter(role => !coveredRoles.has(role))`. -/
def missingKeyRolesOf (contacts : List Contact) : List String :=
  KEY_ROLES.filter (fun r => !((coveredRolesOf contacts).contains r))

/-- `keyCoverage = ((KEY_ROLES.length - missingKeyRoles.length) / KEY_ROLES.length) * 100`. -/
def keyCoverageOf (contacts : List Contact) : Rat :=
  (((KEY_ROLES.length - (missingKeyRolesOf contacts).length : Nat) : Rat) / (KEY_ROLES.length : Rat)) * 100

/-- `diversityBonus = Math.min(coveredRoles.size * 10, 30)`. -/
def diversityBonusOf (contacts : List Contact) : Nat :=
  min ((coveredRolesOf contacts).length * 10) 30

/-- `rolePoints` accumulator of `calculateRoleCoverageScore`. -/
def rolePointsOf (contacts : List Contact) : Nat :=
  contacts.foldl (fun acc c => acc + roleWeight (effectiveBuyingRole c)) 0

/-- `calculateRoleCoverageScore` (each internal binding is lifted to a
named definition above; `0.7` is the rational `7/10`). -/
def calculateRoleCoverageScore (contacts : List Contact) : RoleCoverageResult :=
  { score := min (jsRound (keyCoverageOf contacts * (7/10) + (diversityBonusOf contacts : Rat))) 100
    coveredRoles := coveredRolesOf contacts
    missingKeyRoles := missingKeyRolesOf contacts
    rolePoints := rolePointsOf contacts }

/-- Per-contact breakdown entry produced by `calculateMultiThreadingScore`. -/
structure ContactBreakdown where
  contactId : Option String
  name : String
  email : String
  role : String
  jobTitle : String
  engagementScore : Nat
  engagements : Engagements
deriving Repr, DecidableEq

/-- The per-contact breakdown built by `calculateMultiThreadingScore`. -/
def contactBreakdownOf (c : Contact) : ContactBreakdown :=
  { contactId := c.id
    name :=
      let n := ((c.firstname.getD "") ++ " " ++ (c.lastname.getD "")).trim
      if n = "" then "Unknown" else n
    email := match c.email with | none => "N/A" | some "" => "N/A" | some s => s
    role := match c.hs_buying_role with | none => "Not specified" | some "" => "Not specified" | some s => s
    jobTitle := match c.jobtitle with | none => "Not specified" | some "" => "Not specified" | some s => s
    engagementScore := calculateContactEngagementScore (c.engagements.getD {})
    engagements := c.engagements.getD {} }

/-- `avgEngagementScore`: rounded mean of the per-contact engagement
scores, `0` for an empty contact list. -/
def avgEngagementOf (contacts : List Contact) : Int :=
  if contacts.length = 0 then 0
  else jsRound ((((contacts.map (fun c => calculateContactEngagementScore (c.engagements.getD {}))).sum : Nat) : Rat) / (contacts.length : Rat))

/-- The `threadDepth` filter: contacts with `(engagements?.total || 0) > 0`. -/
def hasEngagement (c : Contact) : Bool := contactTotal c > 0

/-- `threadDepth`: number of engaged stakeholders. -/
def threadDepthOf (contacts : List Contact) : Nat := (contacts.filter hasEngagement).length

/-- `riskLevel` banding of the overall score. -/
def riskLevelOf (overallScore : Int) : String :=
  if overallScore ≥ 70 then "LOW" else if overallScore ≥ 40 then "MEDIUM" else "HIGH"

/-- `riskColor` banding of the overall score. -/
def riskColorOf (overallScore : Int) : String :=
  if overallScore ≥ 70 then "#00a4bd" else if overallScore ≥ 40 then "#f5c26b" else "#f2545b"

/-- Result record of `calculateMultiThreadingScore`. -/
structure ScoreSnapshotFull where
  overallScore : Int
  engagementScore : Int
  participationScore : Int
  roleCoverageScore : Int
  contactCount : Nat
  threadDepth : Nat
  riskLevel : String
  riskColor : String
  coveredRoles : List String
  missingKeyRoles : List String
  contacts : List ContactBreakdown
deriving Repr, DecidableEq

/-- `threadDepthBonus = Math.min(threadDepth * 10, 10)`. -/
def threadDepthBonusOf (contacts : List Contact) : Nat :=
  min (threadDepthOf contacts * 10) 10

/-- The `overallScore` formula of `calculateMultiThreadingScore`
(the weights `0.30`, `0.25`, `0.35` written as exact rationals). -/
def overallScoreOf (contacts : List Contact) : Int :=
  jsRound
    ((avgEngagementOf contacts : Rat) * (30/100)
      + (calculateParticipationScore contacts : Rat) * (25/100)
      + ((calculateRoleCoverageScore contacts).score : Rat) * (35/100)
      + (threadDepthBonusOf contacts : Rat))

/-- `calculateMultiThreadingScore` (the `data` argument's `contacts` field,
defaulted to `[]`, is passed directly; each internal binding is lifted to
a named definition above). -/
def calculateMultiThreadingScore (contacts : List Contact) : ScoreSnapshotFull :=
  { overallScore := overallScoreOf contacts
    engagementScore := avgEngagementOf contacts
    participationScore := calculateParticipationScore contacts
    roleCoverageScore := (calculateRoleCoverageScore contacts).score
    contactCount := contacts.length
    threadDepth := threadDepthOf contacts
    riskLevel := riskLevelOf (overallScoreOf contacts)
    riskColor := riskColorOf (overallScoreOf contacts)
    coveredRoles := (calculateRoleCoverageScore contacts).coveredRoles
    missingKeyRoles := (calculateRoleCoverageScore contacts).missingKeyRoles
    contacts := contacts.map contactBreakdownOf }

/-! ## Risk prediction service (`riskPredictionService`)

`RISK_FACTORS.CHAMPION_CHURN_INDICATORS`: each `{ weight, threshold }`
entry is embedded as a pair of named constants, typed by how the source
uses the threshold (a rate, a score delta, a count, a day count). -/

/-- `lowResponseRate: { weight: 25, threshold: 0.3 }`. -/
def lowResponseRate_weight : Nat := 25

/-- Threshold `0.3` of the low-response-rate indicator. -/
def lowResponseRate_threshold : Rat := 3/10

/-- `decreasingEngagement: { weight: 30, threshold: -20 }`. -/
def decreasingEngagement_weight : Nat := 30

/-- Threshold `-20` of the decreasing-engagement indicator. -/
def decreasingEngagement_threshold : Int := -20

/-- `missedMeetings: { weight: 20, threshold: 2 }`. -/
def missedMeetings_weight : Nat := 20

/-- Threshold `2` of the missed-meetings indicator. -/
def missedMeetings_threshold : Nat := 2

/-- `noRecentContact: { weight: 25, threshold: 14 }`. -/
def noRecentContact_weight : Nat := 25

/-- Threshold `14` (days) of the no-recent-contact indicator. -/
def noRecentContact_threshold : Int := 14

/-- The `engagementHistory` argument of `predictChampionChurn`, with the
destructuring defaults of the source. -/
structure EngagementHistory where
  responseRate : Option Rat := none
  previousEngagementScore : Option Int := none
  missedMeetings : Nat := 0
  daysSinceLastContact : Option Int := none
deriving Repr, DecidableEq

/-- The champion argument of `predictChampionChurn` (only
`engagementScore` and `engagements` are read; `engagementScore || 0`
treats an absent score as 0). -/
structure ChampionData where
  engagementScore : Option Int := none
  engagements : Option Engagements := none
deriving Repr, DecidableEq

/-- A churn factor entry: its `factor` name and `riskContribution`
(the display-only `value`/`threshold`/`description` strings of the source
entries are not modelled). -/
structure ChurnFactor where
  factor : String
  riskContribution : Nat
deriving Repr, DecidableEq

/-- Factor 1 of `predictChampionChurn`: low response rate. -/
def churnFactor1 (hist : EngagementHistory) : List ChurnFactor :=
  match hist.responseRate with
  | some r => if r < lowResponseRate_threshold then [⟨"Low Response Rate", lowResponseRate_weight⟩] else []
  | none => []

/-- Factor 2 of `predictChampionChurn`: decreasing engagement
(`engagementChange < threshold` with `threshold = -20`). -/
def churnFactor2 (champ : ChampionData) (hist : EngagementHistory) : List ChurnFactor :=
  match hist.previousEngagementScore with
  | some p =>
    if champ.engagementScore.getD 0 - p < decreasingEngagement_threshold then
      [⟨"Decreasing Engagement", decreasingEngagement_weight⟩]
    else []
  | none => []

/-- Factor 3 of `predictChampionChurn`: missed meetings. -/
def churnFactor3 (hist : EngagementHistory) : List ChurnFactor :=
  if hist.missedMeetings ≥ missedMeetings_threshold then
    [⟨"Missed Meetings", missedMeetings_weight⟩]
  else []

/-- Factor 4 of `predictChampionChurn`: no recent contact. -/
def churnFactor4 (hist : EngagementHistory) : List ChurnFactor :=
  match hist.daysSinceLastContact with
  | some d => if d ≥ noRecentContact_threshold then [⟨"No Recent Contact", noRecentContact_weight⟩] else []
  | none => []

/-- The factor list accumulated by `predictChampionChurn`, in push order. -/
def churnFactorsOf (champ : ChampionData) (hist : EngagementHistory) : List ChurnFactor :=
  churnFactor1 hist ++ churnFactor2 champ hist ++ churnFactor3 hist ++ churnFactor4 hist

/-- `totalRiskScore`: the sum of the pushed contributions. -/
def churnRiskScoreOf (champ : ChampionData) (hist : EngagementHistory) : Nat :=
  ((churnFactorsOf champ hist).map (·.riskContribution)).sum

/-- Churn-risk banding of the total risk score. -/
def churnRiskLabel (total : Nat) : String :=
  if total ≥ 60 then "HIGH" else if total ≥ 30 then "MEDIUM" else if total > 0 then "LOW" else "NONE"

/-- Recommendation text keyed by the churn-risk label. -/
def churnRecommendation (label : String) : String :=
  if label = "HIGH" then
    "Immediate action required: Schedule urgent check-in with champion and consider identifying backup champion"
  else if label = "MEDIUM" then "Schedule a champion check-in and review engagement strategy"
  else if label = "LOW" then "Monitor champion engagement and maintain regular communication"
  else "Champion relationship appears healthy"

/-- Result record of `predictChampionChurn`. -/
structure ChurnResult where
  churnRisk : String
  riskScore : Nat
  confidence : Nat
  factors : List ChurnFactor
  recommendation : String
deriving Repr, DecidableEq

/-- `predictChampionChurn`. -/
def predictChampionChurn (champion : Option ChampionData) (hist : EngagementHistory) : ChurnResult :=
  match champion with
  | none => ⟨"UNKNOWN", 0, 0, [], "No champion identified"⟩
  | some champ =>
    let factors := churnFactorsOf champ hist
    let totalRiskScore := churnRiskScoreOf champ hist
    let churnRisk := churnRiskLabel totalRiskScore
    { churnRisk := churnRisk
      riskScore := totalRiskScore
      confidence := if factors.length > 0 then min (factors.length * 25) 90 else 50
      factors := factors
      recommendation := churnRecommendation churnRisk }

/-- `STAGE_VELOCITY_BENCHMARKS` entry type. -/
structure VelocityBenchmark where
  expectedDays : Nat
  maxDays : Nat
deriving Repr, DecidableEq

/-- `STAGE_VELOCITY_BENCHMARKS` lookup. -/
def STAGE_VELOCITY_BENCHMARKS (stage : String) : Option VelocityBenchmark :=
  if stage = "appointmentscheduled" then some ⟨14, 30⟩
  else if stage = "qualifiedtobuy" then some ⟨21, 45⟩
  else if stage = "presentationscheduled" then some ⟨14, 30⟩
  else if stage = "decisionmakerboughtin" then some ⟨21, 45⟩
  else if stage = "contractsent" then some ⟨14, 30⟩
  else none

/-- `STAGE_VELOCITY_BENCHMARKS[currentStage] || { expectedDays: 21, maxDays: 45 }`. -/
def benchmarkFor (stage : String) : VelocityBenchmark :=
  (STAGE_VELOCITY_BENCHMARKS stage).getD ⟨21, 45⟩

/-- The `dealData.deal` record consumed by `analyzeStageVelocity`.
`hs_date_entered_currentstage` is embedded post-parse as the parsed
timestamp in milliseconds: `none` covers both a missing field and a date
string whose `Date` parse is invalid (`NaN`), the two cases the source
collapses into `stageEnteredAt = null`. -/
structure DealRecord where
  dealstage : Option String := none
  hs_date_entered_currentstage : Option Int := none
deriving Repr, DecidableEq

/-- `dealData.deal?.dealstage || 'unknown'`. -/
def effDealStage (d : DealRecord) : String :=
  match d.dealstage with
  | none => "unknown"
  | some "" => "unknown"
  | some s => s

/-- `Math.floor((now - stageEnteredAt) / (1000*60*60*24))` (floor division
toward `-∞`, as `Math.floor` on a real quotient). -/
def daysInStageOf (now entered : Int) : Int := (now - entered).fdiv 86400000

/-- The `status` field of `analyzeStageVelocity`. -/
def stageStatusOf (days : Int) (bm : VelocityBenchmark) : String :=
  if days > (bm.maxDays : Int) then "STUCK"
  else if days > (bm.expectedDays : Int) then "SLOWING"
  else "ON_TRACK"

/-- Result record of `analyzeStageVelocity`. The early (no valid date)
return of the source carries only `isStuck`, `daysInStage`, `benchmark`
and `recommendation`; the fields it omits are `none` here. -/
structure StageVelocityResult where
  isStuck : Bool
  isSlowing : Option Bool
  daysInStage : Option Int
  benchmark : Option VelocityBenchmark
  currentStage : Option String
  status : Option String
  recommendation : String
deriving Repr, DecidableEq

/-- `analyzeStageVelocity` (time parameter `now` is `new Date()` in ms). -/
def analyzeStageVelocity (deal : DealRecord) (now : Int) : StageVelocityResult :=
  match deal.hs_date_entered_currentstage with
  | none =>
    { isStuck := false
      isSlowing := none
      daysInStage := none
      benchmark := none
      currentStage := none
      status := none
      recommendation := "Unable to determine stage duration" }
  | some entered =>
    let currentStage := effDealStage deal
    let daysInStage := daysInStageOf now entered
    let benchmark := benchmarkFor currentStage
    let isStuck : Bool := daysInStage > (benchmark.maxDays : Int)
    let isSlowing : Bool := daysInStage > (benchmark.expectedDays : Int)
    let e := benchmark.expectedDays
    let m := benchmark.maxDays
    { isStuck := isStuck
      isSlowing := some isSlowing
      daysInStage := some daysInStage
      benchmark := some benchmark
      currentStage := some currentStage
      status := some (stageStatusOf daysInStage benchmark)
      recommendation :=
        if isStuck then
          s!"Deal stuck in {currentStage} for {daysInStage} days (max: {m}). Escalate or reassess."
        else if isSlowing then
          s!"Deal in {currentStage} for {daysInStage} days (expected: {e}). Monitor closely."
        else s!"Deal progressing normally in {currentStage}" }

/-! ## Coverage analysis service: champion strength
(`calculateChampionStrength` of the coverage/lifecycle service) -/

/-- JavaScript `String.prototype.toLowerCase` (character-wise, ASCII). -/
def jsToLower (s : String) : String := ⟨s.data.map Char.toLower⟩

/-- JavaScript `a || b` on possibly-absent strings: an absent or empty
string falls through to the default. -/
def jsStrOr (o : Option String) (d : String) : String :=
  match o with
  | none => d
  | some "" => d
  | some s => s

/-- JavaScript `String.prototype.includes` helper: does `pat` occur as a
substring at some position of the character list? -/
def strIncludesAux (pat : List Char) : List Char → Bool
  | [] => pat.isPrefixOf ([] : List Char)
  | c :: cs => pat.isPrefixOf (c :: cs) || strIncludesAux pat cs

/-- JavaScript `s.includes(pat)`. -/
def jsIncludes (s pat : String) : Bool := strIncludesAux pat.data s.data

/-- A JavaScript regex word character: `\w = [A-Za-z0-9_]` (note that `_`
is a word character, so `\b` sees no boundary around it). -/
def isWordChar (c : Char) : Bool := c.isAlphanum || c = '_'

/-- Maximal runs of JavaScript word characters of the lower-cased input.
A purely alphanumeric alternative `W` of a case-insensitive
`/\b(...)\b/i` regex matches a string exactly when `W` occurs as such a
maximal run, i.e. is one of these tokens (in particular `team_lead` stays
the single token `team_lead` and does not match `\blead\b`). -/
def wordTokensAux (cs : List Char) (cur : List Char) : List String :=
  match cs with
  | [] => if cur.isEmpty then [] else [⟨cur.reverse⟩]
  | c :: rest =>
    if isWordChar c then wordTokensAux rest (c :: cur)
    else if cur.isEmpty then wordTokensAux rest []
    else (⟨cur.reverse⟩ : String) :: wordTokensAux rest []

/-- The word tokens of a job title (lower-cased). -/
def titleWords (s : String) : List String := wordTokensAux (jsToLower s).data []

/-- Scanner for the regex alternative `\bsr\.\b` (case-insensitive, on the
lower-cased character list): a match needs the string start or a non-word
character before `s`, the literal characters `s`, `r`, `.`, and — because
`.` is a non-word character, so the trailing `\b` demands a word character
next — a word character immediately after the dot. Hence `"sr.manager"`
matches but `"Sr Manager"`, `"Sr. Manager"` and a final `"sr."` do not. -/
def srDotAux (prevIsWord : Bool) : List Char → Bool
  | [] => false
  | c :: rest =>
    (match rest with
      | 'r' :: '.' :: d :: _ => !prevIsWord && c = 's' && isWordChar d
      | _ => false) || srDotAux (isWordChar c) rest

/-- Does `\bsr\.\b` match the (lower-cased) title? -/
def hasSrDot (s : String) : Bool := srDotAux false (jsToLower s).data

/-- The champion argument of `calculateChampionStrength`: the
`properties.jobtitle` / `jobTitle` fallback chain and the engagement
counters. -/
structure ChampionContact where
  jobtitle : Option String := none
  jobTitle : Option String := none
  engagements : Option Engagements := none
deriving Repr, DecidableEq

/-- The `options` argument of `calculateChampionStrength`, with the
destructuring defaults of the source (only the length of
`advocacyIndicators` is read). -/
structure ChampionOptions where
  responseRate : Option Rat := none
  advocacyIndicators : List String := []
  meetingAttendance : Option Rat := none
deriving Repr, DecidableEq

/-- A factor entry of `calculateChampionStrength`: `name`, the stored
(rounded where the source rounds) `score` and `maxScore`; the display-only
`description` string is not modelled. -/
structure StrengthFactor where
  name : String
  score : Int
  maxScore : Nat
deriving Repr, DecidableEq

/-- Factor 1 sub-score: `Math.min(responseRate * 25, 25)` when a response
rate is observed, else the estimate `Math.min(engagements.total * 2, 25)`. -/
def responsivenessScoreOf (champ : ChampionContact) (opts : ChampionOptions) : Rat :=
  match opts.responseRate with
  | some r => min (r * 25) 25
  | none => ((min ((champ.engagements.getD {}).total * 2) 25 : Nat) : Rat)

/-- Factor 1 name: `'Responsiveness'` or `'Responsiveness (estimated)'`. -/
def responsivenessNameOf (opts : ChampionOptions) : String :=
  match opts.responseRate with
  | some _ => "Responsiveness"
  | none => "Responsiveness (estimated)"

/-- Factor 2 sub-score: `Math.min(advocacyIndicators.length * 5 + 5, 25)`. -/
def advocacyScoreOf (opts : ChampionOptions) : Nat :=
  min (opts.advocacyIndicators.length * 5 + 5) 25

/-- Factor 3 sub-score: `Math.min(meetingAttendance * 25, 25)` when an
attendance rate is observed, else `Math.min(engagements.meetings * 5, 25)`. -/
def meetingScoreOf (champ : ChampionContact) (opts : ChampionOptions) : Rat :=
  match opts.meetingAttendance with
  | some a => min (a * 25) 25
  | none => ((min ((champ.engagements.getD {}).meetings * 5) 25 : Nat) : Rat)

/-- Factor 3 name: `'Meeting Attendance'` or `'Meeting Participation'`. -/
def meetingNameOf (opts : ChampionOptions) : String :=
  match opts.meetingAttendance with
  | some _ => "Meeting Attendance"
  | none => "Meeting Participation"

/-- `champion.properties?.jobtitle || champion.jobTitle || ''`. -/
def effJobTitle (c : ChampionContact) : String :=
  jsStrOr c.jobtitle (jsStrOr c.jobTitle "")

/-- Factor 4 sub-score: the title-derived influence level. The purely
alphanumeric alternatives of the three case-insensitive `\b`-delimited
regexes are embedded as word-token membership over `titleWords`; the one
non-alphanumeric alternative, `sr\.`, is embedded by its own scanner
`hasSrDot` with the exact boundary behaviour of the regex. -/
def influenceScoreOf (title : String) : Nat :=
  let ws := titleWords title
  if (["senior", "lead", "principal", "director", "vp", "head"].any
      (fun w => ws.contains w)) || hasSrDot title then 25
  else if ["manager", "supervisor"].any (fun w => ws.contains w) then 20
  else if ["specialist", "consultant", "analyst"].any (fun w => ws.contains w) then 15
  else 10

/-- The factor list of `calculateChampionStrength`, in push order.
Scores are stored rounded exactly where the source applies `Math.round`
(the advocacy and influence scores are integers and stored as-is). -/
def championFactorsOf (champ : ChampionContact) (opts : ChampionOptions) : List StrengthFactor :=
  [⟨responsivenessNameOf opts, jsRound (responsivenessScoreOf champ opts), 25⟩,
   ⟨"Advocacy", (advocacyScoreOf opts : Int), 25⟩,
   ⟨meetingNameOf opts, jsRound (meetingScoreOf champ opts), 25⟩,
   ⟨"Influence Level", (influenceScoreOf (effJobTitle champ) : Int), 25⟩]

/-- `totalScore`: the un-rounded accumulation of the four sub-scores. -/
def championTotalScoreOf (champ : ChampionContact) (opts : ChampionOptions) : Rat :=
  responsivenessScoreOf champ opts + (advocacyScoreOf opts : Rat)
    + meetingScoreOf champ opts + (influenceScoreOf (effJobTitle champ) : Rat)

/-- Reliability banding of the total score. -/
def reliabilityOf (total : Rat) : String :=
  if total ≥ 80 then "STRONG"
  else if total ≥ 60 then "MODERATE"
  else if total ≥ 40 then "DEVELOPING"
  else "WEAK"

/-- The recommendation generator of `calculateChampionStrength`: the
source's `factors.find(...)` checks on factor-name matching, in push
order, then the non-empty default. -/
def strengthRecommendationsOf (champ : ChampionContact) (opts : ChampionOptions) : List String :=
  let factors := championFactorsOf champ opts
  let reliability := reliabilityOf (championTotalScoreOf champ opts)
  let recs :=
    (if (factors.find? (fun f => jsIncludes f.name "Responsiveness" && f.score < 15)).isSome then
      ["Improve communication frequency with champion"] else [])
    ++ (if (factors.find? (fun f => f.name = "Advocacy" && f.score < 15)).isSome then
      ["Provide champion with compelling content to share internally"] else [])
    ++ (if (factors.find? (fun f => jsIncludes f.name "Meeting" && f.score < 15)).isSome then
      ["Increase meeting frequency with champion"] else [])
    ++ (if reliability = "WEAK" then
      ["Consider identifying an additional or alternative champion"] else [])
  if recs.isEmpty then ["Champion is performing well - maintain current engagement"] else recs

/-- Result record of `calculateChampionStrength`. -/
structure ChampionStrengthResult where
  strengthScore : Int
  reliability : String
  factors : List StrengthFactor
  recommendations : List String
deriving Repr, DecidableEq

/-- `calculateChampionStrength`. -/
def calculateChampionStrength (champion : Option ChampionContact)
    (opts : ChampionOptions) : ChampionStrengthResult :=
  match champion with
  | none =>
    { strengthScore := 0
      reliability := "NONE"
      factors := []
      recommendations := ["Identify and develop a champion within the organization"] }
  | some champ =>
    { strengthScore := jsRound (championTotalScoreOf champ opts)
      reliability := reliabilityOf (championTotalScoreOf champ opts)
      factors := championFactorsOf champ opts
      recommendations := strengthRecommendationsOf champ opts }

/-! ## Lifecycle tracker (`trackStakeholderLifecycle`) -/

/-- JavaScript string truthiness: an absent or empty string is falsy. -/
def jsStrOpt (o : Option String) : Option String :=
  match o with
  | some "" => none
  | x => x

/-- A contact entry of a score snapshot as consumed by
`trackStakeholderLifecycle` (`lastEngagementDate` is embedded post-parse
in ms; display-only fields like `name` are carried but unused by the
modelled outputs). -/
structure SnapContact where
  contactId : Option String := none
  id : Option String := none
  email : Option String := none
  name : Option String := none
  role : Option String := none
  effectiveRole : Option String := none
  engagementScore : Option Int := none
  lastEngagementDate : Option Int := none
deriving Repr, DecidableEq

/-- `getContactId`: `contact.contactId || contact.id || contact.email || null`. -/
def getContactId (c : SnapContact) : Option String :=
  match jsStrOpt c.contactId with
  | some k => some k
  | none =>
    match jsStrOpt c.id with
    | some k => some k
    | none => jsStrOpt c.email

/-- A snapshot as consumed by `trackStakeholderLifecycle`
(`snapshot.contacts || []`, `snapshot.overallScore || 0`,
`snapshot.threadDepth || 0`). -/
structure Snapshot where
  contacts : List SnapContact := []
  overallScore : Option Int := none
  threadDepth : Option Int := none
deriving Repr, DecidableEq

/-- JavaScript `Map` insertion: overwrite in place if the key exists,
otherwise append (preserving first-insertion iteration order). -/
def mapInsert (m : List (String × SnapContact)) (k : String) (v : SnapContact) :
    List (String × SnapContact) :=
  if m.any (fun kv => kv.1 = k) then m.map (fun kv => if kv.1 = k then (k, v) else kv)
  else m ++ [(k, v)]

/-- `new Map(contacts.filter(c => getContactId(c) !== null).map(c => [getContactId(c), c]))`. -/
def buildContactMap (contacts : List SnapContact) : List (String × SnapContact) :=
  contacts.foldl
    (fun m c =>
      match getContactId c with
      | none => m
      | some k => mapInsert m k c) []

/-- `Map.get`. -/
def mapGet (m : List (String × SnapContact)) (k : String) : Option SnapContact :=
  (m.find? (fun kv => kv.1 = k)).map (·.2)

/-- `Map.has`. -/
def mapHas (m : List (String × SnapContact)) (k : String) : Bool :=
  m.any (fun kv => kv.1 = k)

/-- The lifecycle `changes` entries (display-only fields — contact names
and messages — are not modelled; the raw `previousScore`/`currentScore`
snapshot fields of `SCORE_CHANGE` and the depths of `DEPTH_CHANGE` are
carried as the source stores them). -/
inductive LifecycleChange where
  | NEW_STAKEHOLDER (contactId : String)
  | ENGAGEMENT_DECREASED (contactId : String) (previousScore currentScore : Int)
  | ENGAGEMENT_INCREASED (contactId : String) (previousScore currentScore : Int)
  | STAKEHOLDER_REMOVED (contactId : String)
  | SCORE_CHANGE (previousScore currentScore : Option Int)
  | DEPTH_CHANGE (previousDepth currentDepth : Option Int)
deriving Repr, DecidableEq

/-- A lifecycle alert (priority and type; display-only fields are not
modelled). -/
structure LifecycleAlert where
  priority : String
  type : String
deriving Repr, DecidableEq

/-- `(contact.role || contact.effectiveRole || '').toUpperCase()`. -/
def contactRoleUpper (c : SnapContact) : String :=
  jsToUpper (jsStrOr c.role (jsStrOr c.effectiveRole ""))

/-- One iteration of the engagement-change loop over `currentMap`:
the changes and alerts pushed for the entry `kv`. -/
def engagementEntryOutcome (previousMap : List (String × SnapContact))
    (kv : String × SnapContact) : List LifecycleChange × List LifecycleAlert :=
  match mapGet previousMap kv.1 with
  | none => ([.NEW_STAKEHOLDER kv.1], [])
  | some previousContact =>
    let currentEngagement := kv.2.engagementScore.getD 0
    let previousEngagement := previousContact.engagementScore.getD 0
    let engagementChange := currentEngagement - previousEngagement
    if engagementChange ≤ -20 then
      ([.ENGAGEMENT_DECREASED kv.1 previousEngagement currentEngagement],
        if contactRoleUpper kv.2 = "CHAMPION" then [⟨"HIGH", "CHAMPION_COOLING"⟩]
        else if contactRoleUpper kv.2 = "DECISION_MAKER" ∧ currentEngagement < 30 then
          [⟨"HIGH", "DM_DISENGAGED"⟩]
        else [])
    else if engagementChange ≥ 20 then
      ([.ENGAGEMENT_INCREASED kv.1 previousEngagement currentEngagement],
        if contactRoleUpper kv.2 = "BUDGET_HOLDER" then [⟨"MEDIUM", "BUDGET_HOLDER_ENGAGED"⟩]
        else [])
    else ([], [])

/-- All changes pushed by the engagement-change loop, in map order. -/
def engChangesOf (previousMap currentMap : List (String × SnapContact)) :
    List LifecycleChange :=
  (currentMap.map (fun kv => (engagementEntryOutcome previousMap kv).1)).flatten

/-- All alerts pushed by the engagement-change loop, in map order. -/
def engAlertsOf (previousMap currentMap : List (String × SnapContact)) :
    List LifecycleAlert :=
  (currentMap.map (fun kv => (engagementEntryOutcome previousMap kv).2)).flatten

/-- The removed-stakeholder loop over `previousMap`. -/
def removalChangesOf (previousMap currentMap : List (String × SnapContact)) :
    List LifecycleChange :=
  (previousMap.filter (fun kv => !(mapHas currentMap kv.1))).map
    (fun kv => .STAKEHOLDER_REMOVED kv.1)

/-- The per-contact staleness alerts over `currentSnapshot.contacts`. -/
def stalenessAlertsOf (currentContacts : List SnapContact) (now : Int) : List LifecycleAlert :=
  (currentContacts.map (fun c =>
    match c.lastEngagementDate with
    | none => []
    | some d =>
      let daysSince := (now - d).fdiv 86400000
      if contactRoleUpper c = "DECISION_MAKER" ∧ daysSince ≥ 14 then [⟨"HIGH", "DM_INACTIVE"⟩]
      else if contactRoleUpper c = "CHAMPION" ∧ daysSince ≥ 9 then
        [⟨"MEDIUM", "CHAMPION_INACTIVE"⟩]
      else [])).flatten

/-- Stable sort of the alerts by priority HIGH→MEDIUM→LOW (JavaScript's
stable `Array.sort` on the priority ranks, implemented as bucket
concatenation). -/
def sortAlerts (alerts : List LifecycleAlert) : List LifecycleAlert :=
  alerts.filter (fun a => a.priority = "HIGH") ++
    alerts.filter (fun a => a.priority = "MEDIUM") ++
    alerts.filter (fun a => !(a.priority = "HIGH") && !(a.priority = "MEDIUM"))

/-- Result record of `trackStakeholderLifecycle`. -/
structure LifecycleResult where
  alerts : List LifecycleAlert
  changes : List LifecycleChange
  isFirstSnapshot : Bool
  summary : String
deriving Repr, DecidableEq

/-- `trackStakeholderLifecycle` (time parameter `now` is `new Date()` in ms). -/
def trackStakeholderLifecycle (currentSnapshot : Snapshot)
    (previousSnapshot : Option Snapshot) (now : Int) : LifecycleResult :=
  match previousSnapshot with
  | none =>
    { alerts := []
      changes := []
      isFirstSnapshot := true
      summary := "First engagement snapshot recorded" }
  | some prev =>
    let currentMap := buildContactMap currentSnapshot.contacts
    let previousMap := buildContactMap prev.contacts
    let scoreDelta := currentSnapshot.overallScore.getD 0 - prev.overallScore.getD 0
    let depthDelta := currentSnapshot.threadDepth.getD 0 - prev.threadDepth.getD 0
    let changes :=
      engChangesOf previousMap currentMap ++
        removalChangesOf previousMap currentMap ++
        (if 10 ≤ |scoreDelta| then
          [.SCORE_CHANGE prev.overallScore currentSnapshot.overallScore] else []) ++
        (if depthDelta ≠ 0 then
          [.DEPTH_CHANGE prev.threadDepth currentSnapshot.threadDepth] else [])
    let alerts := sortAlerts
      (engAlertsOf previousMap currentMap ++ stalenessAlertsOf currentSnapshot.contacts now)
    { alerts := alerts
      changes := changes
      isFirstSnapshot := false
      summary := s!"{changes.length} changes detected, {alerts.length} alerts generated" }

/-! ## Alert throttle (`alertService`) -/

/-- An `ALERT_CONFIGS` entry. -/
structure AlertConfig where
  severity : String
  title : String
  color : String
  throttleMinutes : Nat
deriving Repr, DecidableEq

/-- `ALERT_CONFIGS` lookup. -/
def ALERT_CONFIGS (alertType : String) : Option AlertConfig :=
  if alertType = "SINGLE_THREADED" then
    some ⟨"HIGH", "🚨 Single-Threaded Deal Alert", "#f2545b", 1440⟩
  else if alertType = "NO_NEW_CONTACTS" then
    some ⟨"MEDIUM", "⚠️ No New Contact Involvement", "#f5c26b", 720⟩
  else if alertType = "CHAMPION_DISENGAGED" then
    some ⟨"HIGH", "🌟 Champion Engagement Drop", "#f2545b", 480⟩
  else if alertType = "DM_NOT_ENGAGED" then
    some ⟨"HIGH", "🎯 Decision Maker Not Engaged", "#f2545b", 720⟩
  else if alertType = "SCORE_DROPPED" then
    some ⟨"MEDIUM", "📉 Score Dropped Significantly", "#f5c26b", 480⟩
  else if alertType = "COVERAGE_GAP" then
    some ⟨"MEDIUM", "📊 Coverage Gap Detected", "#f5c26b", 1440⟩
  else if alertType = "STAKEHOLDER_INACTIVE" then
    some ⟨"LOW", "⏰ Stakeholder Inactive", "#516f90", 1440⟩
  else none

/-- The `alertHistory` map: throttle key → last-sent timestamp (ms). -/
abbrev AlertHistory : Type := List (String × Int)

/-- The throttle key: `` `${dealId}-${alertType}` ``. -/
def throttleKey (dealId alertType : String) : String := dealId ++ "-" ++ alertType

/-- `alertHistory.get(key)`. -/
def historyGet (h : AlertHistory) (k : String) : Option Int :=
  (h.find? (fun kv => kv.1 = k)).map (·.2)

/-- `recordAlertSent`: `alertHistory.set(key, Date.now())` (overwrite in
place or append; the `now` parameter is `Date.now()`). -/
def recordAlertSent (h : AlertHistory) (now : Int) (dealId alertType : String) : AlertHistory :=
  if h.any (fun kv => kv.1 = throttleKey dealId alertType) then
    h.map (fun kv =>
      if kv.1 = throttleKey dealId alertType then (throttleKey dealId alertType, now) else kv)
  else h ++ [(throttleKey dealId alertType, now)]

/-- The cool-down of an alert type in milliseconds:
`(ALERT_CONFIGS[alertType] || { throttleMinutes: 60 }).throttleMinutes * 60 * 1000`. -/
def throttleMsOf (alertType : String) : Int :=
  (((ALERT_CONFIGS alertType).map (·.throttleMinutes)).getD 60 : Nat) * 60 * 1000

/-- `shouldThrottle(dealId, alertType)` against history `h` at time `now`.
The source's `if (!lastSent) return false` also treats a recorded
timestamp of `0` (a falsy number) as absent. -/
def shouldThrottle (h : AlertHistory) (now : Int) (dealId alertType : String) : Bool :=
  match historyGet h (throttleKey dealId alertType) with
  | none => false
  | some lastSent =>
    if lastSent = 0 then false
    else decide (now - lastSent < throttleMsOf alertType)

theorem find?_update_self (k : String) (now : Int) :
    ∀ l : List (String × Int), l.any (fun kv => kv.1 = k) = true →
      (l.map (fun kv => if kv.1 = k then (k, now) else kv)).find? (fun kv => kv.1 = k) =
        some (k, now) := by
  intro l
  induction l with
  | nil => intro hcon; simp at hcon
  | cons kv rest ih =>
    intro hany
    rw [List.map_cons]
    by_cases hkk : kv.1 = k
    · rw [if_pos hkk]
      exact List.find?_cons_of_pos _ (by simp)
    · rw [if_neg hkk]
      rw [List.find?_cons_of_neg _ (by simpa using hkk)]
      apply ih
      rw [List.any_cons] at hany
      rcases Bool.or_eq_true_iff.1 hany with hh | hh
      · exact absurd (by simpa using hh) hkk
      · exact hh

theorem find?_update_other (k q : String) (now : Int) (hq : q ≠ k) :
    ∀ l : List (String × Int),
      (l.map (fun kv => if kv.1 = k then (k, now) else kv)).find? (fun kv => kv.1 = q) =
        l.find? (fun kv => kv.1 = q) := by
  intro l
  induction l with
  | nil => rfl
  | cons kv rest ih =>
    rw [List.map_cons]
    by_cases hkk : kv.1 = k
    · rw [if_pos hkk]
      have h1 : ¬ ((k, now).1 = q) := by
        intro hc
        exact hq (by simpa using hc.symm)
      have h2 : ¬ (kv.1 = q) := by
        rw [hkk]
        intro hc
        exact hq hc.symm
      rw [List.find?_cons_of_neg _ (by simpa using h1),
        List.find?_cons_of_neg _ (by simpa using h2)]
      exact ih
    · rw [if_neg hkk]
      by_cases hkv : kv.1 = q
      · rw [List.find?_cons_of_pos _ (by simpa using hkv),
          List.find?_cons_of_pos _ (by simpa using hkv)]
      · rw [List.find?_cons_of_neg _ (by simpa using hkv),
          List.find?_cons_of_neg _ (by simpa using hkv)]
        exact ih

theorem historyGet_recordAlertSent_same (h : AlertHistory) (now : Int) (d t : String) :
    historyGet (recordAlertSent h now d t) (throttleKey d t) = some now := by
  unfold recordAlertSent historyGet
  split_ifs with hany
  · rw [find?_update_self (throttleKey d t) now h hany]
    rfl
  · have hnone : (h.find? (fun kv => kv.1 = throttleKey d t)) = none := by
      rw [List.find?_eq_none]
      intro kv hkv
      by_contra hcon
      exact hany (List.any_eq_true.2 ⟨kv, hkv, by simpa using hcon⟩)
    rw [List.find?_append, hnone]
    rw [List.find?_cons_of_pos _ (by simp)]
    rfl

theorem historyGet_recordAlertSent_other (h : AlertHistory) (now : Int) (d t : String)
    {k : String} (hk : k ≠ throttleKey d t) :
    historyGet (recordAlertSent h now d t) k = historyGet h k := by
  unfold recordAlertSent historyGet
  split_ifs with hany
  · rw [find?_update_other (throttleKey d t) k now hk h]
  · rw [List.find?_append]
    have hlast : (([(throttleKey d t, now)] : List (String × Int)).find?
        (fun kv => kv.1 = k)) = none := by
      rw [List.find?_cons_of_neg _ (by simpa using fun hc => hk (by simpa using hc.symm))]
      rfl
    rw [hlast, Option.or_none]

/-! ### Bounds on the component scores -/

theorem jsRound_eq {q : Rat} {n : Int} (h1 : (n : Rat) ≤ q + 1/2) (h2 : q + 1/2 < (n : Rat) + 1) :
    jsRound q = n := by
  unfold jsRound
  exact Int.floor_eq_iff.mpr ⟨h1, by linarith⟩

theorem calculateContactEngagementScore_le_100 (e : Engagements) :
    calculateContactEngagementScore e ≤ 100 :=
  Nat.min_le_right _ _

theorem calculateParticipationScore_nonneg (l : List Contact) :
    0 ≤ calculateParticipationScore l := by
  unfold calculateParticipationScore
  split
  · norm_num
  · refine le_min (jsRound_nonneg ?_) (by norm_num)
    have h1 : (0 : Rat) ≤ ((l.filter isActiveContact).length : Rat) / (l.length : Rat) * 60 := by
      positivity
    have h2 : (0 : Rat) ≤ ((min ((l.filter isActiveContact).length * 10) 40 : Nat) : Rat) := by
      positivity
    linarith

theorem calculateParticipationScore_le_100 (l : List Contact) :
    calculateParticipationScore l ≤ 100 := by
  unfold calculateParticipationScore
  split
  · norm_num
  · exact min_le_right _ _

theorem roleCoverageScore_nonneg (l : List Contact) :
    0 ≤ (calculateRoleCoverageScore l).score := by
  show 0 ≤ min (jsRound (keyCoverageOf l * (7/10) + (diversityBonusOf l : Rat))) 100
  refine le_min (jsRound_nonneg ?_) (by norm_num)
  have h1 : (0 : Rat) ≤ keyCoverageOf l := by
    unfold keyCoverageOf
    positivity
  have h2 : (0 : Rat) ≤ ((diversityBonusOf l : Nat) : Rat) := by positivity
  linarith

theorem roleCoverageScore_le_100 (l : List Contact) :
    (calculateRoleCoverageScore l).score ≤ 100 := by
  show min (jsRound (keyCoverageOf l * (7/10) + (diversityBonusOf l : Rat))) 100 ≤ 100
  exact min_le_right _ _

theorem avgEngagementOf_nonneg (l : List Contact) : 0 ≤ avgEngagementOf l := by
  unfold avgEngagementOf
  split
  · norm_num
  · apply jsRound_nonneg
    positivity

theorem avgEngagementOf_le_100 (l : List Contact) : avgEngagementOf l ≤ 100 := by
  unfold avgEngagementOf
  split
  · norm_num
  · rename_i h
    apply jsRound_le_of_le
    have hlen : (0 : Rat) < (l.length : Rat) := by
      have : 0 < l.length := Nat.pos_of_ne_zero h
      exact_mod_cast this
    rw [div_le_iff₀ hlen]
    have hsum : ((l.map fun c => calculateContactEngagementScore (c.engagements.getD {})).sum) ≤
        l.length * 100 := by
      have hb := List.sum_le_card_nsmul
        (l.map fun c => calculateContactEngagementScore (c.engagements.getD {})) 100 ?_
      · simpa [smul_eq_mul] using hb
      · intro x hx
        obtain ⟨c, _, rfl⟩ := List.mem_map.1 hx
        exact calculateContactEngagementScore_le_100 _
    have hsum' : ((l.map fun c => calculateContactEngagementScore (c.engagements.getD {})).sum) ≤
        100 * l.length := by omega
    calc (((l.map fun c => calculateContactEngagementScore (c.engagements.getD {})).sum : Nat) : Rat)
        ≤ ((100 * l.length : Nat) : Rat) := Nat.cast_le.mpr hsum'
      _ = 100 * (l.length : Rat) := by push_cast; ring

/-- C1: for every contact list, `calculateMultiThreadingScore` returns an
`overallScore` in `[0, 100]`, equal to
`round(avgEngagement*0.30 + participation*0.25 + roleCoverage*0.35 + min(threadDepth*10, 10))`;
for the empty contact list it returns `overallScore = 0` with
`riskLevel = "HIGH"`. -/
theorem overallScore_bounds_and_formula (contacts : List Contact) :
    (0 ≤ (calculateMultiThreadingScore contacts).overallScore ∧
      (calculateMultiThreadingScore contacts).overallScore ≤ 100) ∧
    (calculateMultiThreadingScore contacts).overallScore =
      jsRound (((calculateMultiThreadingScore contacts).engagementScore : Rat) * (30/100)
        + ((calculateMultiThreadingScore contacts).participationScore : Rat) * (25/100)
        + ((calculateMultiThreadingScore contacts).roleCoverageScore : Rat) * (35/100)
        + ((min ((calculateMultiThreadingScore contacts).threadDepth * 10) 10 : Nat) : Rat)) ∧
    (contacts = [] →
      (calculateMultiThreadingScore contacts).overallScore = 0 ∧
      (calculateMultiThreadingScore contacts).riskLevel = "HIGH") := by
  have ha1 := avgEngagementOf_nonneg contacts
  have ha2 := avgEngagementOf_le_100 contacts
  have hp1 := calculateParticipationScore_nonneg contacts
  have hp2 := calculateParticipationScore_le_100 contacts
  have hr1 := roleCoverageScore_nonneg contacts
  have hr2 := roleCoverageScore_le_100 contacts
  have hb2 : threadDepthBonusOf contacts ≤ 10 := Nat.min_le_right _ _
  have ha1' : (0 : Rat) ≤ (avgEngagementOf contacts : Rat) := by exact_mod_cast ha1
  have ha2' : (avgEngagementOf contacts : Rat) ≤ 100 := by exact_mod_cast ha2
  have hp1' : (0 : Rat) ≤ (calculateParticipationScore contacts : Rat) := by exact_mod_cast hp1
  have hp2' : (calculateParticipationScore contacts : Rat) ≤ 100 := by exact_mod_cast hp2
  have hr1' : (0 : Rat) ≤ ((calculateRoleCoverageScore contacts).score : Rat) := by exact_mod_cast hr1
  have hr2' : ((calculateRoleCoverageScore contacts).score : Rat) ≤ 100 := by exact_mod_cast hr2
  have hb1' : (0 : Rat) ≤ (threadDepthBonusOf contacts : Rat) := by positivity
  have hb2' : (threadDepthBonusOf contacts : Rat) ≤ 10 := by exact_mod_cast hb2
  refine ⟨⟨?_, ?_⟩, rfl, ?_⟩
  · show 0 ≤ overallScoreOf contacts
    exact jsRound_nonneg (by linarith)
  · show overallScoreOf contacts ≤ 100
    apply jsRound_le_of_le
    push_cast
    linarith
  · rintro rfl
    have e1 : avgEngagementOf ([] : List Contact) = 0 := by simp [avgEngagementOf]
    have e2 : calculateParticipationScore ([] : List Contact) = 0 := by
      simp [calculateParticipationScore]
    have e3 : (calculateRoleCoverageScore ([] : List Contact)).score = 0 := by
      show min (jsRound (keyCoverageOf [] * (7/10) + (diversityBonusOf [] : Rat))) 100 = 0
      have hk : keyCoverageOf ([] : List Contact) = 0 := by
        unfold keyCoverageOf missingKeyRolesOf coveredRolesOf
        norm_num [KEY_ROLES]
      have hd : diversityBonusOf ([] : List Contact) = 0 := by
        simp [diversityBonusOf, coveredRolesOf]
      rw [hk, hd]
      have h0 : jsRound ((0 : Rat) * (7/10) + ((0 : Nat) : Rat)) = 0 :=
        jsRound_eq (by norm_num) (by norm_num)
      rw [h0]
      simp
    have e4 : threadDepthBonusOf ([] : List Contact) = 0 := by
      simp [threadDepthBonusOf, threadDepthOf]
    have eo : overallScoreOf ([] : List Contact) = 0 := by
      unfold overallScoreOf
      rw [e1, e2, e3, e4]
      have hq : ((0 : Int) : Rat) * (30/100) + ((0 : Int) : Rat) * (25/100)
          + ((0 : Int) : Rat) * (35/100) + ((0 : Nat) : Rat) = 0 := by norm_num
      rw [hq]
      exact jsRound_eq (by norm_num) (by norm_num)
    refine ⟨eo, ?_⟩
    show riskLevelOf (overallScoreOf []) = "HIGH"
    rw [eo]
    rfl

/-- Closed-form witness for the hypothesis-bearing part of
`overallScore_bounds_and_formula`: the empty contact list scores `0` at
risk level `HIGH`. -/
theorem overallScore_bounds_and_formula_witness :
    (calculateMultiThreadingScore []).overallScore = 0 ∧
      (calculateMultiThreadingScore []).riskLevel = "HIGH" :=
  (overallScore_bounds_and_formula []).2.2 rfl

/-- C2: `calculateContactEngagementScore` is monotonically non-decreasing
in each of emails, meetings and calls, always lies in `[0, 100]` (the lower
bound holds because the result is a natural number), and for every count
`n` the meetings-only score dominates the calls-only score, which dominates
the emails-only score (field order of `Engagements` is
emails, meetings, calls, total). -/
theorem engagementScore_monotone_and_priority :
    (∀ em mt cl tt em', em ≤ em' →
      calculateContactEngagementScore ⟨em, mt, cl, tt⟩ ≤
        calculateContactEngagementScore ⟨em', mt, cl, tt⟩) ∧
    (∀ em mt cl tt mt', mt ≤ mt' →
      calculateContactEngagementScore ⟨em, mt, cl, tt⟩ ≤
        calculateContactEngagementScore ⟨em, mt', cl, tt⟩) ∧
    (∀ em mt cl tt cl', cl ≤ cl' →
      calculateContactEngagementScore ⟨em, mt, cl, tt⟩ ≤
        calculateContactEngagementScore ⟨em, mt, cl', tt⟩) ∧
    (∀ e : Engagements, calculateContactEngagementScore e ≤ 100) ∧
    (∀ n tt : Nat,
      calculateContactEngagementScore ⟨n, 0, 0, tt⟩ ≤
          calculateContactEngagementScore ⟨0, 0, n, tt⟩ ∧
        calculateContactEngagementScore ⟨0, 0, n, tt⟩ ≤
          calculateContactEngagementScore ⟨0, n, 0, tt⟩) := by
  refine ⟨?_, ?_, ?_, fun e => calculateContactEngagementScore_le_100 e, ?_⟩ <;>
    (intros; unfold calculateContactEngagementScore; dsimp only) <;> omega

/-- Closed-form witness for `engagementScore_monotone_and_priority`:
monotonicity applied at a concrete pair of engagement records. -/
theorem engagementScore_monotone_witness :
    calculateContactEngagementScore ⟨1, 0, 0, 1⟩ ≤ calculateContactEngagementScore ⟨2, 0, 0, 1⟩ :=
  engagementScore_monotone_and_priority.1 1 0 0 1 2 (by decide)

/-- C9: the per-contact engagement score never reads `engagements.total`
(two records agreeing on emails/meetings/calls get equal scores), while the
participation score and the thread-depth count read only the `total`
fields of the contacts. -/
theorem engagement_total_noninterference :
    (∀ e1 e2 : Engagements, e1.emails = e2.emails → e1.meetings = e2.meetings →
      e1.calls = e2.calls →
      calculateContactEngagementScore e1 = calculateContactEngagementScore e2) ∧
    (∀ l1 l2 : List Contact, l1.map contactTotal = l2.map contactTotal →
      calculateParticipationScore l1 = calculateParticipationScore l2 ∧
        threadDepthOf l1 = threadDepthOf l2) := by
  have key : ∀ (p : Nat → Bool) (l1 l2 : List Contact), l1.map contactTotal = l2.map contactTotal →
      (l1.filter fun c => p (contactTotal c)).length =
        (l2.filter fun c => p (contactTotal c)).length := by
    intro p l1 l2 h
    have c1 : (l1.filter fun c => p (contactTotal c)).length =
        (l1.map contactTotal).countP p := by
      rw [List.countP_map, List.countP_eq_length_filter]
      rfl
    have c2 : (l2.filter fun c => p (contactTotal c)).length =
        (l2.map contactTotal).countP p := by
      rw [List.countP_map, List.countP_eq_length_filter]
      rfl
    rw [c1, c2, h]
  refine ⟨?_, ?_⟩
  · intro e1 e2 h1 h2 h3
    unfold calculateContactEngagementScore
    rw [h1, h2, h3]
  · intro l1 l2 h
    have hlen : l1.length = l2.length := by
      have := congrArg List.length h
      simpa using this
    have hact : (l1.filter isActiveContact).length = (l2.filter isActiveContact).length := by
      have := key (fun t => decide (t ≥ 2)) l1 l2 h
      simpa [isActiveContact] using this
    have hdep : (l1.filter hasEngagement).length = (l2.filter hasEngagement).length := by
      have := key (fun t => decide (t > 0)) l1 l2 h
      simpa [hasEngagement] using this
    constructor
    · unfold calculateParticipationScore
      rw [hlen, hact]
    · unfold threadDepthOf
      exact hdep

/-- Witness for `engagement_total_noninterference`: two records differing
only in `total` get the same engagement score. -/
theorem engagement_total_noninterference_witness :
    calculateContactEngagementScore ⟨1, 2, 3, 6⟩ = calculateContactEngagementScore ⟨1, 2, 3, 999⟩ :=
  engagement_total_noninterference.1 ⟨1, 2, 3, 6⟩ ⟨1, 2, 3, 999⟩ rfl rfl rfl

/-! ### Covered-role set lemmas -/

theorem mem_insertUnique {l : List String} {x r : String} :
    r ∈ insertUnique l x ↔ r ∈ l ∨ r = x := by
  unfold insertUnique
  by_cases h : l.contains x
  · rw [if_pos h]
    have hx : x ∈ l := by simpa using h
    constructor
    · exact Or.inl
    · rintro (h1 | rfl)
      · exact h1
      · exact hx
  · rw [if_neg h]
    simp

theorem mem_coveredRoles_foldl (l : List Contact) (acc : List String) (r : String) :
    r ∈ l.foldl (fun acc c => insertUnique acc (effectiveBuyingRole c)) acc ↔
      r ∈ acc ∨ ∃ c ∈ l, effectiveBuyingRole c = r := by
  induction l generalizing acc with
  | nil => simp
  | cons c l ih =>
    rw [List.foldl_cons, ih, mem_insertUnique]
    constructor
    · rintro ((h | h) | ⟨c', hc', rfl⟩)
      · exact Or.inl h
      · exact Or.inr ⟨c, List.mem_cons_self c l, h.symm⟩
      · exact Or.inr ⟨c', List.mem_cons_of_mem c hc', rfl⟩
    · rintro (h | ⟨c', hc', rfl⟩)
      · exact Or.inl (Or.inl h)
      · rcases List.mem_cons.1 hc' with rfl | hc'
        · exact Or.inl (Or.inr rfl)
        · exact Or.inr ⟨c', hc', rfl⟩

theorem mem_coveredRolesOf {l : List Contact} {r : String} :
    r ∈ coveredRolesOf l ↔ ∃ c ∈ l, effectiveBuyingRole c = r := by
  unfold coveredRolesOf
  rw [mem_coveredRoles_foldl]
  simp

/-- C3: whenever the three key roles are all present among the contacts'
effective buying roles, the role-coverage score is at least 70 (in fact it
is `min(round(100*0.7 + 30), 100) = 100`) and `missingKeyRoles` is empty. -/
theorem roleCoverage_all_key_roles_present (contacts : List Contact)
    (h : ∀ r ∈ KEY_ROLES, ∃ c ∈ contacts, effectiveBuyingRole c = r) :
    70 ≤ (calculateRoleCoverageScore contacts).score ∧
      (calculateRoleCoverageScore contacts).missingKeyRoles = [] := by
  have hcov : ∀ r ∈ KEY_ROLES, r ∈ coveredRolesOf contacts := fun r hr =>
    mem_coveredRolesOf.2 (h r hr)
  have hmiss : missingKeyRolesOf contacts = [] := by
    unfold missingKeyRolesOf
    rw [List.filter_eq_nil_iff]
    intro r hr
    have := hcov r hr
    simp [this]
  have hlen3 : 3 ≤ (coveredRolesOf contacts).length := by
    have h1 := hcov "DECISION_MAKER" (by simp [KEY_ROLES])
    have h2 := hcov "BUDGET_HOLDER" (by simp [KEY_ROLES])
    have h3 := hcov "CHAMPION" (by simp [KEY_ROLES])
    have hsub : ({"DECISION_MAKER", "BUDGET_HOLDER", "CHAMPION"} : Finset String) ⊆
        (coveredRolesOf contacts).toFinset := by
      intro x hx
      rw [List.mem_toFinset]
      rcases Finset.mem_insert.1 hx with rfl | hx
      · exact h1
      rcases Finset.mem_insert.1 hx with rfl | hx
      · exact h2
      rw [Finset.mem_singleton] at hx
      subst hx
      exact h3
    have hcard : ({"DECISION_MAKER", "BUDGET_HOLDER", "CHAMPION"} : Finset String).card = 3 := by
      decide
    calc 3 = ({"DECISION_MAKER", "BUDGET_HOLDER", "CHAMPION"} : Finset String).card := hcard.symm
      _ ≤ (coveredRolesOf contacts).toFinset.card := Finset.card_le_card hsub
      _ ≤ (coveredRolesOf contacts).length := List.toFinset_card_le _
  have hdiv : diversityBonusOf contacts = 30 := by
    unfold diversityBonusOf
    omega
  have hkc : keyCoverageOf contacts = 100 := by
    unfold keyCoverageOf
    rw [hmiss]
    norm_num [KEY_ROLES]
  refine ⟨?_, hmiss⟩
  show 70 ≤ min (jsRound (keyCoverageOf contacts * (7/10) + (diversityBonusOf contacts : Rat))) 100
  rw [hkc, hdiv]
  have h100 : jsRound ((100 : Rat) * (7/10) + ((30 : Nat) : Rat)) = 100 :=
    jsRound_eq (by norm_num) (by norm_num)
  rw [h100]
  norm_num

/-- Witness for `roleCoverage_all_key_roles_present`: three contacts
holding the three key roles. -/
theorem roleCoverage_all_key_roles_present_witness :
    70 ≤ (calculateRoleCoverageScore
        [{ hs_buying_role := some "DECISION_MAKER" },
         { hs_buying_role := some "BUDGET_HOLDER" },
         { hs_buying_role := some "CHAMPION" }]).score ∧
      (calculateRoleCoverageScore
        [{ hs_buying_role := some "DECISION_MAKER" },
         { hs_buying_role := some "BUDGET_HOLDER" },
         { hs_buying_role := some "CHAMPION" }]).missingKeyRoles = [] :=
  roleCoverage_all_key_roles_present _ (by decide)

/-! ### Champion churn (C4) -/

/-- C4 counterexample: with a previous engagement score supplied and an
engagement change of exactly `-20` points (current 30, previous 50), the
source's strict comparison `engagementChange < -20` does not fire: no
Decreasing Engagement factor is pushed and the total risk score stays 0,
although the change is `≤ -20`. -/
theorem championChurn_boundary_counterexample :
    ((30 : Int) - 50 ≤ -20) ∧
    (predictChampionChurn (some { engagementScore := some 30 })
        { previousEngagementScore := some 50 }).factors = [] ∧
    (predictChampionChurn (some { engagementScore := some 30 })
        { previousEngagementScore := some 50 }).riskScore = 0 := by
  refine ⟨by norm_num, ?_, ?_⟩ <;> decide

/-- C4 (amended): whenever `engagementHistory` supplies a previous
engagement score and the champion's engagement change is strictly below
`-20` points, the Decreasing Engagement factor (contribution 30) is in the
factor list, the total risk score is the sum of the pushed contributions,
and hence the factor contributes making the total at least 30. -/
theorem championChurn_decreasing_engagement (champ : ChampionData)
    (hist : EngagementHistory) (p : Int)
    (hp : hist.previousEngagementScore = some p)
    (hdrop : champ.engagementScore.getD 0 - p < -20) :
    (⟨"Decreasing Engagement", 30⟩ : ChurnFactor) ∈
      (predictChampionChurn (some champ) hist).factors ∧
    (predictChampionChurn (some champ) hist).riskScore =
      (((predictChampionChurn (some champ) hist).factors.map (·.riskContribution)).sum) ∧
    30 ≤ (predictChampionChurn (some champ) hist).riskScore := by
  have hf2 : churnFactor2 champ hist = [⟨"Decreasing Engagement", 30⟩] := by
    simp only [churnFactor2, hp, decreasingEngagement_threshold, decreasingEngagement_weight]
    rw [if_pos hdrop]
  have hmem : (⟨"Decreasing Engagement", 30⟩ : ChurnFactor) ∈ churnFactorsOf champ hist := by
    unfold churnFactorsOf
    rw [hf2]
    simp
  refine ⟨hmem, rfl, ?_⟩
  show 30 ≤ churnRiskScoreOf champ hist
  unfold churnRiskScoreOf churnFactorsOf
  rw [hf2]
  simp only [List.map_append, List.sum_append, List.map_cons, List.map_nil, List.sum_cons,
    List.sum_nil]
  omega

/-- Witness for `championChurn_decreasing_engagement`: a concrete drop
from 50 to 10. -/
theorem championChurn_decreasing_engagement_witness :
    (⟨"Decreasing Engagement", 30⟩ : ChurnFactor) ∈
      (predictChampionChurn (some { engagementScore := some 10 })
        { previousEngagementScore := some 50 }).factors :=
  (championChurn_decreasing_engagement { engagementScore := some 10 }
    { previousEngagementScore := some 50 } 50 rfl (by norm_num)).1

/-! ### Champion strength recommendations (C8) -/

theorem jsIncludes_rname_resp : jsIncludes "Responsiveness" "Responsiveness" = true := rfl

theorem jsIncludes_rname_est_resp :
    jsIncludes "Responsiveness (estimated)" "Responsiveness" = true := rfl

theorem jsIncludes_adv_resp : jsIncludes "Advocacy" "Responsiveness" = false := rfl

theorem jsIncludes_ma_resp : jsIncludes "Meeting Attendance" "Responsiveness" = false := rfl

theorem jsIncludes_mp_resp : jsIncludes "Meeting Participation" "Responsiveness" = false := rfl

theorem jsIncludes_il_resp : jsIncludes "Influence Level" "Responsiveness" = false := rfl

theorem jsIncludes_rname_meet : jsIncludes "Responsiveness" "Meeting" = false := rfl

theorem jsIncludes_rname_est_meet :
    jsIncludes "Responsiveness (estimated)" "Meeting" = false := rfl

theorem jsIncludes_adv_meet : jsIncludes "Advocacy" "Meeting" = false := rfl

theorem jsIncludes_ma_meet : jsIncludes "Meeting Attendance" "Meeting" = true := rfl

theorem jsIncludes_mp_meet : jsIncludes "Meeting Participation" "Meeting" = true := rfl

theorem jsIncludes_il_meet : jsIncludes "Influence Level" "Meeting" = false := rfl

theorem find_resp_isSome (champ : ChampionContact) (opts : ChampionOptions) :
    ((championFactorsOf champ opts).find?
        (fun f => jsIncludes f.name "Responsiveness" && f.score < 15)).isSome =
      decide (jsRound (responsivenessScoreOf champ opts) < 15) := by
  rcases hrr : opts.responseRate with _ | r <;>
    rcases hma : opts.meetingAttendance with _ | a <;>
      by_cases hb : jsRound (responsivenessScoreOf champ opts) < 15 <;>
        simp [championFactorsOf, responsivenessNameOf, meetingNameOf, hrr, hma, hb,
          List.find?, jsIncludes_rname_resp, jsIncludes_rname_est_resp, jsIncludes_adv_resp,
          jsIncludes_ma_resp, jsIncludes_mp_resp, jsIncludes_il_resp]

theorem find_adv_isSome (champ : ChampionContact) (opts : ChampionOptions) :
    ((championFactorsOf champ opts).find?
        (fun f => f.name = "Advocacy" && f.score < 15)).isSome =
      decide (advocacyScoreOf opts < 15) := by
  rcases hrr : opts.responseRate with _ | r <;>
    rcases hma : opts.meetingAttendance with _ | a <;>
      by_cases hb : advocacyScoreOf opts < 15 <;>
        simp [championFactorsOf, responsivenessNameOf, meetingNameOf, hrr, hma, hb,
          List.find?]

theorem find_meet_isSome (champ : ChampionContact) (opts : ChampionOptions) :
    ((championFactorsOf champ opts).find?
        (fun f => jsIncludes f.name "Meeting" && f.score < 15)).isSome =
      decide (jsRound (meetingScoreOf champ opts) < 15) := by
  rcases hrr : opts.responseRate with _ | r <;>
    rcases hma : opts.meetingAttendance with _ | a <;>
      by_cases hb : jsRound (meetingScoreOf champ opts) < 15 <;>
        simp [championFactorsOf, responsivenessNameOf, meetingNameOf, hrr, hma, hb,
          List.find?, jsIncludes_rname_meet, jsIncludes_rname_est_meet, jsIncludes_adv_meet,
          jsIncludes_ma_meet, jsIncludes_mp_meet, jsIncludes_il_meet]

theorem strengthRecommendations_characterization (champ : ChampionContact)
    (opts : ChampionOptions) :
    strengthRecommendationsOf champ opts =
      (let recs :=
        (if jsRound (responsivenessScoreOf champ opts) < 15 then
          ["Improve communication frequency with champion"] else [])
        ++ (if advocacyScoreOf opts < 15 then
          ["Provide champion with compelling content to share internally"] else [])
        ++ (if jsRound (meetingScoreOf champ opts) < 15 then
          ["Increase meeting frequency with champion"] else [])
        ++ (if reliabilityOf (championTotalScoreOf champ opts) = "WEAK" then
          ["Consider identifying an additional or alternative champion"] else []);
      if recs.isEmpty then ["Champion is performing well - maintain current engagement"]
      else recs) := by
  simp only [strengthRecommendationsOf]
  rw [find_resp_isSome, find_adv_isSome, find_meet_isSome]
  simp only [decide_eq_true_eq]

/-- C8 counterexample: a champion whose title-derived influence sub-score
is 10 (below 15) while the other three sub-scores are at least 15 receives
no targeted recommendation at all — `calculateChampionStrength` falls back
to the generic "performing well" message, refuting the claim that every
sub-score below 15 yields a targeted recommendation. -/
theorem championStrength_influence_counterexample :
    ((calculateChampionStrength (some {})
        { responseRate := some 1,
          advocacyIndicators := ["customer references", "internal advocacy"],
          meetingAttendance := some 1 }).factors.map (fun f => (f.name, f.score))) =
      [("Responsiveness", 25), ("Advocacy", 15), ("Meeting Attendance", 25),
        ("Influence Level", 10)] ∧
    ((10 : Int) < 15) ∧
    (calculateChampionStrength (some {})
        { responseRate := some 1,
          advocacyIndicators := ["customer references", "internal advocacy"],
          meetingAttendance := some 1 }).recommendations =
      ["Champion is performing well - maintain current engagement"] := by
  have hrespQ : responsivenessScoreOf {}
      { responseRate := some 1,
        advocacyIndicators := ["customer references", "internal advocacy"],
        meetingAttendance := some 1 } = 25 := by
    norm_num [responsivenessScoreOf, min_def]
  have hmeetQ : meetingScoreOf {}
      { responseRate := some 1,
        advocacyIndicators := ["customer references", "internal advocacy"],
        meetingAttendance := some 1 } = 25 := by
    norm_num [meetingScoreOf, min_def]
  have hrespR : jsRound (responsivenessScoreOf {}
      { responseRate := some 1,
        advocacyIndicators := ["customer references", "internal advocacy"],
        meetingAttendance := some 1 }) = 25 := by
    rw [hrespQ]
    exact jsRound_eq (by norm_num) (by norm_num)
  have hmeetR : jsRound (meetingScoreOf {}
      { responseRate := some 1,
        advocacyIndicators := ["customer references", "internal advocacy"],
        meetingAttendance := some 1 }) = 25 := by
    rw [hmeetQ]
    exact jsRound_eq (by norm_num) (by norm_num)
  have hadv : advocacyScoreOf
      { responseRate := some 1,
        advocacyIndicators := ["customer references", "internal advocacy"],
        meetingAttendance := some 1 } = 15 := by decide
  have hinf : influenceScoreOf (effJobTitle {}) = 10 := by decide
  have htot : championTotalScoreOf {}
      { responseRate := some 1,
        advocacyIndicators := ["customer references", "internal advocacy"],
        meetingAttendance := some 1 } = 75 := by
    unfold championTotalScoreOf
    rw [hrespQ, hmeetQ, hadv, hinf]
    norm_num
  have hrel : reliabilityOf (championTotalScoreOf {}
      { responseRate := some 1,
        advocacyIndicators := ["customer references", "internal advocacy"],
        meetingAttendance := some 1 }) = "MODERATE" := by
    rw [htot]
    norm_num [reliabilityOf]
  refine ⟨?_, by norm_num, ?_⟩
  · show ((championFactorsOf {} _).map (fun f => (f.name, f.score))) = _
    simp only [championFactorsOf, responsivenessNameOf, meetingNameOf, hrespR, hmeetR, hadv,
      hinf, List.map_cons, List.map_nil]
    rfl
  · show strengthRecommendationsOf {} _ = _
    rw [strengthRecommendations_characterization]
    rw [hrespR, hmeetR, hadv, hrel]
    have hne : (("MODERATE" : String) = "WEAK") ↔ False := by simp
    norm_num [hne]

/-- C8 (amended): `calculateChampionStrength` emits a targeted
recommendation exactly for each of the responsiveness, advocacy and
meeting sub-scores whose stored (rounded) value is below 15, plus the
generic alternative-champion suggestion when reliability is WEAK; the
influence sub-score triggers no targeted recommendation of its own, and
when nothing fires the generic "performing well" message is returned. -/
theorem championStrength_targeted_recommendations (champ : ChampionContact)
    (opts : ChampionOptions) :
    (calculateChampionStrength (some champ) opts).recommendations =
      (let recs :=
        (if jsRound (responsivenessScoreOf champ opts) < 15 then
          ["Improve communication frequency with champion"] else [])
        ++ (if advocacyScoreOf opts < 15 then
          ["Provide champion with compelling content to share internally"] else [])
        ++ (if jsRound (meetingScoreOf champ opts) < 15 then
          ["Increase meeting frequency with champion"] else [])
        ++ (if reliabilityOf (championTotalScoreOf champ opts) = "WEAK" then
          ["Consider identifying an additional or alternative champion"] else []);
      if recs.isEmpty then ["Champion is performing well - maintain current engagement"]
      else recs) :=
  strengthRecommendations_characterization champ opts

/-! ### Lifecycle diff (C6) -/

/-- Is this change a `STAKEHOLDER_REMOVED` entry for key `k`? -/
def isRemoved (k : String) : LifecycleChange → Bool
  | .STAKEHOLDER_REMOVED i => i = k
  | _ => false

/-- Is this change an engagement-change entry for key `k`? -/
def isEngagementChange (k : String) : LifecycleChange → Bool
  | .ENGAGEMENT_DECREASED i _ _ => i = k
  | .ENGAGEMENT_INCREASED i _ _ => i = k
  | _ => false

theorem mapHas_iff {m : List (String × SnapContact)} {k : String} :
    mapHas m k = true ↔ k ∈ m.map Prod.fst := by
  simp only [mapHas, List.any_eq_true, List.mem_map]
  constructor
  · rintro ⟨kv, hkv, hk⟩
    exact ⟨kv, hkv, by simpa using hk⟩
  · rintro ⟨kv, hkv, hk⟩
    exact ⟨kv, hkv, by simpa using hk⟩

theorem keysOf_mapInsert (m : List (String × SnapContact)) (k : String) (v : SnapContact) :
    (mapInsert m k v).map Prod.fst =
      if mapHas m k then m.map Prod.fst else m.map Prod.fst ++ [k] := by
  unfold mapInsert mapHas
  split_ifs with h
  · rw [List.map_map]
    apply List.map_congr_left
    intro kv _
    by_cases hk : kv.1 = k
    · simp [hk]
    · simp [hk]
  · simp

theorem nodup_keys_buildContactMap (l : List SnapContact) :
    ((buildContactMap l).map Prod.fst).Nodup := by
  suffices h : ∀ acc : List (String × SnapContact), (acc.map Prod.fst).Nodup →
      ((l.foldl
        (fun m c =>
          match getContactId c with
          | none => m
          | some k => mapInsert m k c) acc).map Prod.fst).Nodup by
    exact h [] (by simp)
  induction l with
  | nil => intro acc hacc; simpa using hacc
  | cons c l ih =>
    intro acc hacc
    rw [List.foldl_cons]
    rcases hid : getContactId c with _ | k
    · exact ih acc hacc
    · apply ih
      rw [keysOf_mapInsert]
      split_ifs with h
      · exact hacc
      · rw [List.nodup_append]
        refine ⟨hacc, List.nodup_singleton k, ?_⟩
        intro a ha hb
        rw [List.mem_singleton] at hb
        subst hb
        exact absurd (mapHas_iff.2 ha) (by simpa using h)

theorem length_filter_map_filter {α β : Type} (p : α → Bool) (f : α → β) (q : β → Bool)
    (l : List α) :
    (((l.filter p).map f).filter q).length = l.countP (fun x => p x && q (f x)) := by
  induction l with
  | nil => rfl
  | cons a l ih =>
    by_cases hp : p a <;> by_cases hq : q (f a) <;>
      simp [List.filter_cons, List.countP_cons, hp, hq, ih]

theorem countP_removed_nodup (cm : List (String × SnapContact)) (k : String) :
    ∀ pm : List (String × SnapContact), (pm.map Prod.fst).Nodup →
      pm.countP (fun kv => !(mapHas cm kv.1) && decide (kv.1 = k)) =
        if mapHas pm k && !(mapHas cm k) then 1 else 0 := by
  intro pm
  induction pm with
  | nil => intro _; simp [mapHas]
  | cons kv pm ih =>
    intro hnd
    rw [List.map_cons, List.nodup_cons] at hnd
    obtain ⟨hnotin, hnd⟩ := hnd
    have hhead : mapHas (kv :: pm) k = (decide (kv.1 = k) || mapHas pm k) := by
      simp [mapHas, List.any_cons]
    rw [List.countP_cons, ih hnd, hhead]
    by_cases hk : kv.1 = k
    · have hpm : mapHas pm k = false := by
        rw [← hk]
        by_contra hcon
        rw [Bool.not_eq_false, mapHas_iff] at hcon
        exact hnotin hcon
      subst hk
      by_cases hc : mapHas cm kv.1 <;> simp [hpm, hc]
    · simp [hk]

theorem engagementEntryOutcome_shape (pm : List (String × SnapContact))
    (kv : String × SnapContact) :
    (engagementEntryOutcome pm kv).1 = [] ∨
    (engagementEntryOutcome pm kv).1 = [.NEW_STAKEHOLDER kv.1] ∨
    (∃ p c, (engagementEntryOutcome pm kv).1 = [.ENGAGEMENT_DECREASED kv.1 p c]) ∨
    (∃ p c, (engagementEntryOutcome pm kv).1 = [.ENGAGEMENT_INCREASED kv.1 p c]) := by
  unfold engagementEntryOutcome
  rcases mapGet pm kv.1 with _ | pc
  · right; left; rfl
  · dsimp only
    by_cases h1 : kv.2.engagementScore.getD 0 - pc.engagementScore.getD 0 ≤ -20
    · rw [if_pos h1]
      right; right; left
      exact ⟨_, _, rfl⟩
    · rw [if_neg h1]
      by_cases h2 : kv.2.engagementScore.getD 0 - pc.engagementScore.getD 0 ≥ 20
      · rw [if_pos h2]
        right; right; right
        exact ⟨_, _, rfl⟩
      · rw [if_neg h2]
        left
        rfl

theorem mem_engChangesOf {pm cm : List (String × SnapContact)} {ch : LifecycleChange}
    (h : ch ∈ engChangesOf pm cm) :
    ∃ kv ∈ cm, ch ∈ (engagementEntryOutcome pm kv).1 := by
  unfold engChangesOf at h
  rw [List.mem_flatten] at h
  obtain ⟨l, hl, hch⟩ := h
  rw [List.mem_map] at hl
  obtain ⟨kv, hkv, rfl⟩ := hl
  exact ⟨kv, hkv, hch⟩

theorem filter_isRemoved_engChanges (pm cm : List (String × SnapContact)) (k : String) :
    (engChangesOf pm cm).filter (isRemoved k) = [] := by
  rw [List.filter_eq_nil_iff]
  intro ch hch
  obtain ⟨kv, _, hmem⟩ := mem_engChangesOf hch
  rcases engagementEntryOutcome_shape pm kv with h | h | ⟨p, c, h⟩ | ⟨p, c, h⟩ <;>
    rw [h] at hmem <;> simp at hmem <;> subst hmem <;> simp [isRemoved]

theorem isEngagementChange_engChanges {pm cm : List (String × SnapContact)} {k : String}
    {ch : LifecycleChange} (hch : ch ∈ engChangesOf pm cm)
    (h : isEngagementChange k ch = true) : mapHas cm k = true := by
  obtain ⟨kv, hkv, hmem⟩ := mem_engChangesOf hch
  have hk : kv.1 = k := by
    rcases engagementEntryOutcome_shape pm kv with hs | hs | ⟨p, c, hs⟩ | ⟨p, c, hs⟩ <;>
      rw [hs] at hmem <;> simp at hmem
    · subst hmem; simp [isEngagementChange] at h
    · subst hmem; simpa [isEngagementChange] using h
    · subst hmem; simpa [isEngagementChange] using h
  rw [mapHas_iff, ← hk]
  exact List.mem_map_of_mem Prod.fst hkv

theorem filter_isEngagementChange_removals (pm cm : List (String × SnapContact)) (k : String) :
    (removalChangesOf pm cm).filter (isEngagementChange k) = [] := by
  rw [List.filter_eq_nil_iff]
  intro ch hch
  unfold removalChangesOf at hch
  rw [List.mem_map] at hch
  obtain ⟨kv, _, rfl⟩ := hch
  simp [isEngagementChange]

/-- C6 counterexample: a contact with no `contactId`, `id` or `email`
present only in the previous snapshot is filtered out of the contact maps
and never reported: the change list is empty, refuting the claim that
every contact present in `previous` and absent from `current` is reported
as `STAKEHOLDER_REMOVED`. -/
theorem lifecycle_removed_counterexample :
    (trackStakeholderLifecycle { contacts := [] }
        (some { contacts := [{ name := some "Ghost", engagementScore := some 50 }] }) 0).changes
      = [] ∧
    ({ name := some "Ghost", engagementScore := some 50 } : SnapContact) ∈
      ({ contacts := [{ name := some "Ghost", engagementScore := some 50 }] } : Snapshot).contacts ∧
    (({ contacts := [] } : Snapshot).contacts = []) := by
  refine ⟨?_, ?_, rfl⟩ <;> decide

/-- C6 (amended): for every pair of snapshots, every contact-map key
present in the previous snapshot's map (keyed by
`contactId || id || email`; contacts with none of these are filtered out)
and absent from the current snapshot's map yields exactly one
`STAKEHOLDER_REMOVED` change, keys not in that situation yield none, and
no key is reported both as removed and as an engagement change. -/
theorem lifecycle_removed_spec (cur prev : Snapshot) (now : Int) (k : String) :
    (((trackStakeholderLifecycle cur (some prev) now).changes.filter (isRemoved k)).length =
      if mapHas (buildContactMap prev.contacts) k &&
          !(mapHas (buildContactMap cur.contacts) k) then 1 else 0) ∧
    ¬((trackStakeholderLifecycle cur (some prev) now).changes.filter (isRemoved k) ≠ [] ∧
      (trackStakeholderLifecycle cur (some prev) now).changes.filter (isEngagementChange k) ≠ []) := by
  have hch : (trackStakeholderLifecycle cur (some prev) now).changes =
      engChangesOf (buildContactMap prev.contacts) (buildContactMap cur.contacts) ++
        removalChangesOf (buildContactMap prev.contacts) (buildContactMap cur.contacts) ++
        (if 10 ≤ |cur.overallScore.getD 0 - prev.overallScore.getD 0| then
          [.SCORE_CHANGE prev.overallScore cur.overallScore] else []) ++
        (if cur.threadDepth.getD 0 - prev.threadDepth.getD 0 ≠ 0 then
          [.DEPTH_CHANGE prev.threadDepth cur.threadDepth] else []) := rfl
  have hSD1 : ((if 10 ≤ |cur.overallScore.getD 0 - prev.overallScore.getD 0| then
      ([.SCORE_CHANGE prev.overallScore cur.overallScore] : List LifecycleChange)
      else []).filter (isRemoved k)) = [] := by
    split_ifs <;> simp [isRemoved]
  have hSD2 : ((if cur.threadDepth.getD 0 - prev.threadDepth.getD 0 ≠ 0 then
      ([.DEPTH_CHANGE prev.threadDepth cur.threadDepth] : List LifecycleChange)
      else []).filter (isRemoved k)) = [] := by
    split_ifs <;> simp [isRemoved]
  have hSE1 : ((if 10 ≤ |cur.overallScore.getD 0 - prev.overallScore.getD 0| then
      ([.SCORE_CHANGE prev.overallScore cur.overallScore] : List LifecycleChange)
      else []).filter (isEngagementChange k)) = [] := by
    split_ifs <;> simp [isEngagementChange]
  have hSE2 : ((if cur.threadDepth.getD 0 - prev.threadDepth.getD 0 ≠ 0 then
      ([.DEPTH_CHANGE prev.threadDepth cur.threadDepth] : List LifecycleChange)
      else []).filter (isEngagementChange k)) = [] := by
    split_ifs <;> simp [isEngagementChange]
  have hremoved : ((trackStakeholderLifecycle cur (some prev) now).changes.filter
      (isRemoved k)) =
      (removalChangesOf (buildContactMap prev.contacts)
        (buildContactMap cur.contacts)).filter (isRemoved k) := by
    rw [hch, List.filter_append, List.filter_append, List.filter_append,
      filter_isRemoved_engChanges, hSD1, hSD2]
    simp
  have hcount : ((removalChangesOf (buildContactMap prev.contacts)
      (buildContactMap cur.contacts)).filter (isRemoved k)).length =
      if mapHas (buildContactMap prev.contacts) k &&
          !(mapHas (buildContactMap cur.contacts) k) then 1 else 0 := by
    unfold removalChangesOf
    rw [length_filter_map_filter]
    rw [← countP_removed_nodup (buildContactMap cur.contacts) k
      (buildContactMap prev.contacts) (nodup_keys_buildContactMap prev.contacts)]
    apply List.countP_congr
    intro kv _
    simp [isRemoved]
  constructor
  · rw [hremoved, hcount]
  · rintro ⟨hr, he⟩
    have hlen : ((trackStakeholderLifecycle cur (some prev) now).changes.filter
        (isRemoved k)).length ≠ 0 := by
      simpa [List.length_eq_zero] using hr
    rw [hremoved, hcount] at hlen
    have hnotcur : mapHas (buildContactMap cur.contacts) k = false := by
      by_contra hcon
      rw [Bool.not_eq_false] at hcon
      simp [hcon] at hlen
    have hex : ∃ ch ∈ (trackStakeholderLifecycle cur (some prev) now).changes,
        isEngagementChange k ch = true := by
      rcases hfil : (trackStakeholderLifecycle cur (some prev) now).changes.filter
          (isEngagementChange k) with _ | ⟨ch, rest⟩
      · exact absurd hfil he
      · have hmem : ch ∈ (trackStakeholderLifecycle cur (some prev) now).changes.filter
            (isEngagementChange k) := by
          rw [hfil]
          exact List.mem_cons_self ch rest
        rw [List.mem_filter] at hmem
        exact ⟨ch, hmem.1, hmem.2⟩
    obtain ⟨ch, hchmem, hcheng⟩ := hex
    rw [hch, List.mem_append] at hchmem
    rcases hchmem with hchmem | hd
    · rw [List.mem_append] at hchmem
      rcases hchmem with hchmem | hs
      · rw [List.mem_append] at hchmem
        rcases hchmem with heng | hrem
        · have hcontra := isEngagementChange_engChanges heng hcheng
          rw [hnotcur] at hcontra
          exact Bool.noConfusion hcontra
        · unfold removalChangesOf at hrem
          rw [List.mem_map] at hrem
          obtain ⟨kv, _, rfl⟩ := hrem
          simp [isEngagementChange] at hcheng
      · revert hs
        split_ifs <;> intro hs <;> simp at hs
        subst hs
        simp [isEngagementChange] at hcheng
    · revert hd
      split_ifs <;> intro hd <;> simp at hd
      subst hd
      simp [isEngagementChange] at hcheng

/-- Witness for `lifecycle_removed_spec`: a contact identified by `"c1"`
removed between two concrete snapshots. -/
theorem lifecycle_removed_spec_witness :
    ((trackStakeholderLifecycle { contacts := [] }
        (some { contacts := [{ id := some "c1", engagementScore := some 50 }] }) 0).changes.filter
      (isRemoved "c1")).length =
      if mapHas (buildContactMap [{ id := some "c1", engagementScore := some 50 }]) "c1" &&
          !(mapHas (buildContactMap []) "c1") then 1 else 0 :=
  (lifecycle_removed_spec { contacts := [] }
    { contacts := [{ id := some "c1", engagementScore := some 50 }] } 0 "c1").1

/-! ### Alert throttle (C5, C10) -/

/-- C5 counterexample: the throttle key is the string concatenation
`dealId + "-" + alertType`, so the distinct pairs `("1-X", "Y")` and
`("1", "X-Y")` collide on the key `"1-X-Y"`: recording a send for the
first pair flips `shouldThrottle` from false to true for the second. -/
theorem throttle_key_collision_counterexample :
    shouldThrottle [] 1000 "1" "X-Y" = false ∧
    shouldThrottle (recordAlertSent [] 1000 "1-X" "Y") 1000 "1" "X-Y" = true ∧
    ¬(("1-X" : String) = "1" ∧ ("Y" : String) = "X-Y") := by
  refine ⟨rfl, ?_, by decide⟩
  decide

/-- C5 (amended): per concatenated throttle key `dealId + "-" + alertType`:
`shouldThrottle` is false when no send is recorded for the key; recording
a send at a positive clock value makes it true for that key and keeps it
true while less than the type's cool-down has elapsed; recording affects
only pairs with the same concatenated key (pairs with distinct
concatenated keys never throttle each other, but distinct `(dealId,
alertType)` pairs may collide on one key); and every type configured in
`ALERT_CONFIGS` has a cool-down between 480 and 1440 minutes. -/
theorem shouldThrottle_spec :
    (∀ (h : AlertHistory) (now : Int) (d t : String),
      historyGet h (throttleKey d t) = none → shouldThrottle h now d t = false) ∧
    (∀ (h : AlertHistory) (rec now : Int) (d t : String),
      0 < rec → now - rec < throttleMsOf t →
      shouldThrottle (recordAlertSent h rec d t) now d t = true) ∧
    (∀ (h : AlertHistory) (rec now : Int) (d t d' t' : String),
      throttleKey d t ≠ throttleKey d' t' →
      shouldThrottle (recordAlertSent h rec d t) now d' t' = shouldThrottle h now d' t') ∧
    (∀ (t : String) (c : AlertConfig), ALERT_CONFIGS t = some c →
      480 ≤ c.throttleMinutes ∧ c.throttleMinutes ≤ 1440) := by
  refine ⟨?_, ?_, ?_, ?_⟩
  · intro h now d t hget
    unfold shouldThrottle
    rw [hget]
  · intro h rec now d t hrec hlt
    unfold shouldThrottle
    simp only [historyGet_recordAlertSent_same]
    rw [if_neg (by omega : ¬ rec = 0)]
    simpa using hlt
  · intro h rec now d t d' t' hne
    unfold shouldThrottle
    rw [historyGet_recordAlertSent_other h rec d t (Ne.symm hne)]
  · intro t c h
    unfold ALERT_CONFIGS at h
    split_ifs at h
    all_goals first
      | exact Option.noConfusion h
      | (injection h with h2; subst h2; exact ⟨by norm_num, by norm_num⟩)

/-- Witness for `shouldThrottle_spec`: false on an empty history; true
right after recording; an unrelated key is unaffected. -/
theorem shouldThrottle_spec_witness :
    shouldThrottle [] 5 "d" "SINGLE_THREADED" = false ∧
    shouldThrottle (recordAlertSent [] 1000 "d" "SCORE_DROPPED") 1000 "d" "SCORE_DROPPED" = true ∧
    shouldThrottle (recordAlertSent [] 1000 "a" "COVERAGE_GAP") 5 "b" "COVERAGE_GAP" =
      shouldThrottle [] 5 "b" "COVERAGE_GAP" :=
  ⟨shouldThrottle_spec.1 [] 5 "d" "SINGLE_THREADED" rfl,
    shouldThrottle_spec.2.1 [] 1000 1000 "d" "SCORE_DROPPED" (by norm_num) (by decide),
    shouldThrottle_spec.2.2.1 [] 1000 5 "a" "COVERAGE_GAP" "b" "COVERAGE_GAP" (by decide)⟩

/-- C10: for an `alertType` with no `ALERT_CONFIGS` entry,
`shouldThrottle` still returns a value (the lookup falls back to
`{ throttleMinutes: 60 }`): over any history whose recorded timestamps
are positive clock values, it returns true exactly when a send for the
same concatenated `(dealId, alertType)` key was recorded less than
60 minutes (3 600 000 ms) earlier. -/
theorem shouldThrottle_unknown_type_default (h : AlertHistory) (now : Int) (d t : String)
    (hcfg : ALERT_CONFIGS t = none)
    (hpos : ∀ kv ∈ h, 0 < kv.2) :
    (shouldThrottle h now d t = true ↔
      ∃ last, historyGet h (throttleKey d t) = some last ∧ now - last < 60 * 60 * 1000) := by
  have hms : throttleMsOf t = 60 * 60 * 1000 := by
    unfold throttleMsOf
    rw [hcfg]
    rfl
  unfold shouldThrottle
  rcases hget : historyGet h (throttleKey d t) with _ | last
  · simp
  · have hl : 0 < last := by
      have hget' := hget
      unfold historyGet at hget'
      rw [Option.map_eq_some'] at hget'
      obtain ⟨kv, hfind, hkv2⟩ := hget'
      have hmem := List.mem_of_find?_eq_some hfind
      have := hpos kv hmem
      omega
    have hne : ¬ (last = 0) := by omega
    simp [hne, hms]

/-- Witness for `shouldThrottle_unknown_type_default`: an unconfigured
type recorded 5 ms ago is throttled under the 60-minute default. -/
theorem shouldThrottle_unknown_type_default_witness :
    shouldThrottle [("d-WEIRD", 5)] 10 "d" "WEIRD" = true :=
  (shouldThrottle_unknown_type_default [("d-WEIRD", 5)] 10 "d" "WEIRD" rfl
    (by
      intro kv hkv
      rw [List.mem_singleton] at hkv
      subst hkv
      norm_num)).2 ⟨5, rfl, by norm_num⟩

/-! ### Stage velocity (C7) -/

theorem benchmarkFor_expected_le_max (s : String) :
    (benchmarkFor s).expectedDays ≤ (benchmarkFor s).maxDays := by
  unfold benchmarkFor STAGE_VELOCITY_BENCHMARKS
  split_ifs <;> decide

/-- C7: `analyzeStageVelocity` never fails: a missing or unparseable
stage-entry timestamp yields `isStuck = false`, `daysInStage = null` and
the "Unable to determine" recommendation; with a valid timestamp the
status is STUCK exactly when days-in-stage exceed the stage benchmark's
`maxDays`, SLOWING exactly when they exceed `expectedDays` but not
`maxDays`, and ON_TRACK otherwise; stages absent from
`STAGE_VELOCITY_BENCHMARKS` use the default `{expectedDays := 21, maxDays := 45}`. -/
theorem stageVelocity_spec (deal : DealRecord) (now : Int) :
    (deal.hs_date_entered_currentstage = none →
      (analyzeStageVelocity deal now).isStuck = false ∧
      (analyzeStageVelocity deal now).daysInStage = none ∧
      (analyzeStageVelocity deal now).recommendation = "Unable to determine stage duration") ∧
    (∀ entered, deal.hs_date_entered_currentstage = some entered →
      ((analyzeStageVelocity deal now).status = some "STUCK" ↔
        daysInStageOf now entered > ((benchmarkFor (effDealStage deal)).maxDays : Int)) ∧
      ((analyzeStageVelocity deal now).status = some "SLOWING" ↔
        (daysInStageOf now entered > ((benchmarkFor (effDealStage deal)).expectedDays : Int) ∧
          daysInStageOf now entered ≤ ((benchmarkFor (effDealStage deal)).maxDays : Int))) ∧
      ((analyzeStageVelocity deal now).status = some "ON_TRACK" ↔
        daysInStageOf now entered ≤ ((benchmarkFor (effDealStage deal)).expectedDays : Int))) ∧
    (∀ s, STAGE_VELOCITY_BENCHMARKS s = none → benchmarkFor s = ⟨21, 45⟩) := by
  refine ⟨?_, ?_, ?_⟩
  · intro h
    simp [analyzeStageVelocity, h]
  · intro entered h
    have hstat : (analyzeStageVelocity deal now).status =
        some (stageStatusOf (daysInStageOf now entered) (benchmarkFor (effDealStage deal))) := by
      simp [analyzeStageVelocity, h]
    have hele := benchmarkFor_expected_le_max (effDealStage deal)
    rw [hstat]
    unfold stageStatusOf
    refine ⟨?_, ?_, ?_⟩ <;> split_ifs with h1 h2 <;> simp <;> omega
  · intro s h
    unfold benchmarkFor
    rw [h]
    rfl

/-- Witness for `stageVelocity_spec`: a deal with no stage-entry date,
and a deal 100 days into `contractsent` (stuck). -/
theorem stageVelocity_spec_witness :
    ((analyzeStageVelocity { dealstage := some "contractsent" } 5).isStuck = false ∧
      (analyzeStageVelocity { dealstage := some "contractsent" } 5).daysInStage = none ∧
      (analyzeStageVelocity { dealstage := some "contractsent" } 5).recommendation =
        "Unable to determine stage duration") ∧
    ((analyzeStageVelocity
        { dealstage := some "contractsent", hs_date_entered_currentstage := some 0 }
        8640000000).status = some "STUCK" ↔
      daysInStageOf 8640000000 0 >
        ((benchmarkFor (effDealStage
          { dealstage := some "contractsent", hs_date_entered_currentstage := some 0 })).maxDays : Int)) :=
  ⟨(stageVelocity_spec { dealstage := some "contractsent" } 5).1 rfl,
    ((stageVelocity_spec
      { dealstage := some "contractsent", hs_date_entered_currentstage := some 0 }
      8640000000).2.1 0 rfl).1⟩

end HubspotMT
